import Mathlib

/-!
# Verification of the `lilv-rs` state subsystem (`src/state.rs`)

A shallow embedding of the Rust binding's state module.  Conventions used
throughout:

* Raw pointers are `Option Nat`: `none` is the null pointer, `some a` a
  non-null address `a`.  Pointers handed around as plain machine words
  (e.g. engine state handles) are `Nat`, with `0` as null.
* C strings and Rust `&str` contents are byte lists (`List Nat`).
* A Rust panic is modelled by `Option.none` of the operation's result type:
  a function that can panic returns `Option α`, and `none` means the panic
  path was taken.
* The external lilv C engine is not part of the crate; where a claim needs
  its behaviour, the engine is modelled from the specification's contract
  and the definition's doc comment says so.
-/

namespace LilvState

/-- Rust `pub type Value = *const c_void`: `none` is the null pointer. -/
abbrev Value := Option Nat

/-- A continuation byte `0x80 ..= 0xBF` of a UTF-8 sequence. -/
def isCont (b : Nat) : Bool := 0x80 ≤ b && b ≤ 0xBF

/-- UTF-8 validity of a byte list, exactly as Rust's `str` validation:
ASCII, two-byte `C2..DF`, three-byte with the `E0`/`ED` (overlong /
surrogate) restrictions, four-byte with the `F0`/`F4` restrictions. -/
def utf8Valid : List Nat → Bool
  | [] => true
  | b :: l =>
    if b ≤ 0x7F then utf8Valid l
    else if 0xC2 ≤ b && b ≤ 0xDF then
      match l with
      | b1 :: l1 => isCont b1 && utf8Valid l1
      | [] => false
    else if 0xE0 ≤ b && b ≤ 0xEF then
      match l with
      | b1 :: b2 :: l2 =>
        (if b = 0xE0 then decide (0xA0 ≤ b1) && decide (b1 ≤ 0xBF)
         else if b = 0xED then decide (0x80 ≤ b1) && decide (b1 ≤ 0x9F)
         else isCont b1) && isCont b2 && utf8Valid l2
      | _ => false
    else if 0xF0 ≤ b && b ≤ 0xF4 then
      match l with
      | b1 :: b2 :: b3 :: l3 =>
        (if b = 0xF0 then decide (0x90 ≤ b1) && decide (b1 ≤ 0xBF)
         else if b = 0xF4 then decide (0x80 ≤ b1) && decide (b1 ≤ 0x8F)
         else isCont b1) && isCont b2 && isCont b3 && utf8Valid l3
      | _ => false
    else false

/-- Rust `CStr::to_str`: succeeds (with the same bytes) exactly on valid
UTF-8, otherwise returns the error case (`none`). -/
def to_str (bs : List Nat) : Option (List Nat) :=
  if utf8Valid bs then some bs else none

/-- Rust `CString::new`: fails exactly when the byte string contains an
interior NUL byte; `new(s).unwrap()` therefore panics on such input. -/
def cstring_new (s : List Nat) : Option (List Nat) :=
  if s.contains 0 then none else some s

/-- The caller's produce-accessor (trait `GetPortValue`): from a port
symbol, the `(value, size, type)` triple for that port. -/
abbrev GetPortValue := List Nat → Value × Nat × Nat

/-- Observable outcome of one run of the produce trampoline
`get_port_value_func`: the list of symbols passed to the caller's
`get_port_value` (in order), the two values written through the `size` and
`type_` out-parameters, and the returned value pointer. -/
structure GetTrampOut where
  calls : List (List Nat)
  size : Nat
  type_ : Nat
  ret : Value
  deriving DecidableEq, Repr

/-- The produce trampoline `get_port_value_func` from `src/state.rs`.
`user` is the dereferenced context pointer, a `&mut Option<Box<dyn
GetPortValue>>` slot.  If the slot is filled, the symbol is converted with
`to_str().unwrap()` — a panic (`none`) on non-UTF-8 bytes — and the
accessor is invoked once; its `(val, sz, tp)` is written through the out
parameters and `val` is returned.  If the slot is empty both out
parameters are set to `0` and null is returned. -/
def get_port_value_func (user : Option GetPortValue) (port_symbol : List Nat) :
    Option GetTrampOut :=
  match user with
  | some u =>
    match to_str port_symbol with
    | none => none
    | some s =>
      match u s with
      | (val, sz, tp) => some ⟨[s], sz, tp, val⟩
  | none => some ⟨[], 0, 0, none⟩

/-- One invocation of the caller's `set_port_value` with its four
arguments. -/
structure SetCall where
  sym : List Nat
  value : Value
  size : Nat
  type_ : Nat
  deriving DecidableEq, Repr

/-- The consume trampoline `set_port_value_func` from `src/state.rs`.
`user` is the dereferenced context slot `&mut Option<Box<dyn
SetPortValue>>`, modelled by an opaque accessor identity.  The result is
the list of invocations of the caller's `set_port_value`; `none` is the
panic of `to_str().unwrap()` on a non-UTF-8 symbol.  A filled slot yields
exactly one invocation carrying all four arguments; an empty slot yields
none, and the trampoline has no return value. -/
def set_port_value_func (user : Option Nat) (port_symbol : List Nat)
    (value : Value) (size type_ : Nat) : Option (List SetCall) :=
  match user with
  | some _ =>
    match to_str port_symbol with
    | none => none
    | some s => some [⟨s, value, size, type_⟩]
  | none => some []

/-- The `State` struct: an `Arc<Life>` back-reference (modelled by the
world's identity) and the non-null engine state handle
`NonNull<lib::LilvState>` (a nonzero address). -/
structure State where
  world : Nat
  inner : Nat
  deriving DecidableEq, Repr

/-- `State::new`: wraps a raw engine pointer, `None` exactly when
`NonNull::new` fails, i.e. the pointer is null. -/
def State.new (world : Nat) (state_ptr : Nat) : Option State :=
  if state_ptr = 0 then none else some ⟨world, state_ptr⟩

/-- `#[derive(Clone)]` for `State`: memberwise clone — the `Arc` is
shared and the `NonNull` pointer is copied bitwise, so the clone holds the
same `inner` handle. -/
def State.clone (s : State) : State := ⟨s.world, s.inner⟩

/-- `impl Drop for State`: unconditionally calls
`lilv_state_free(self.inner)`.  The model appends the freed handle to a
log of engine `lilv_state_free` calls. -/
def State.drop (s : State) (freeLog : List Nat) : List Nat :=
  freeLog ++ [s.inner]

/-- Number of `lilv_state_free` calls a log records against handle `h`. -/
def freeCount (log : List Nat) (h : Nat) : Nat := log.count h

/-- The feature array built by both `new_from_instance` and `restore`:
`features.into_iter().map(|f| f as *const LV2Feature)
.chain(once(null())).collect()`.  Input: the addresses of the features in
iteration order; output: the pointer array handed to the engine. -/
def featuresVec (fs : List Nat) : List Value :=
  fs.map some ++ [none]

/-- The type of the C callback slot `LilvGetPortValueFunc` as the engine
sees it: the trampoline together with the opaque user-data it will be
applied to. -/
abbrev GetCb := Option GetPortValue → List Nat → Option GetTrampOut

/-- The type of the C callback slot `LilvSetPortValueFunc`. -/
abbrev SetCb := Option Nat → List Nat → Value → Nat → Nat → Option (List SetCall)

/-- What `State::new_from_instance` hands to
`lilv_state_new_from_instance` and what it returns: the (possibly null)
`get_value` callback, the feature pointer array, and the wrapped result. -/
structure CaptureOutcome where
  get_value : Option GetCb
  features : List Value
  result : Option State

/-- `State::new_from_instance` from `src/state.rs`.  The four directory
hints go through `CString::new(dir.unwrap_or_default()).unwrap()` (panic
on an interior NUL); `get_value` is `user.map_or(None, |_|
Some(get_port_value_func))` — null exactly when no accessor is supplied;
the feature array is `featuresVec`; the engine's reply `enginePtr` is
wrapped by `State::new` with the plugin's world. -/
def new_from_instance (world : Nat)
    (file_dir copy_dir link_dir save_dir : Option (List Nat))
    (user : Option GetPortValue) (features : List Nat) (enginePtr : Nat) :
    Option CaptureOutcome := do
  let _ ← cstring_new (file_dir.getD [])
  let _ ← cstring_new (copy_dir.getD [])
  let _ ← cstring_new (link_dir.getD [])
  let _ ← cstring_new (save_dir.getD [])
  let get_value : Option GetCb := user.map fun _ => get_port_value_func
  pure ⟨get_value, featuresVec features, State.new world enginePtr⟩

/-- What `State::restore` hands to `lilv_state_restore`: the (possibly
null) `set_value` callback and the feature pointer array.  `restore` has
no return value. -/
structure RestoreOutcome where
  set_value : Option SetCb
  features : List Value

/-- `State::restore` from `src/state.rs`: `set_value` is
`user.map_or(None, |_| Some(set_port_value_func))`, the feature array is
`featuresVec`. -/
def restore (user : Option Nat) (features : List Nat) : RestoreOutcome :=
  ⟨user.map fun _ => set_port_value_func, featuresVec features⟩

/-- Modelled from the spec: the port-probing side of the external engine
call `lilv_state_new_from_instance` (the lilv C library, outside this
crate).  Per §4.1/§4.3 the engine invokes the supplied produce callback
once per port with that port's symbol and the opaque user data, and a null
callback omits port-value handling entirely.  The result is the
concatenated accessor call log (a panicking trampoline run contributes its
empty log). -/
def engineCaptureCalls (cb : Option GetCb) (user : Option GetPortValue)
    (ports : List (List Nat)) : List (List Nat) :=
  match cb with
  | none => []
  | some f =>
    ports.foldr
      (fun p acc =>
        (match f user p with
         | some o => o.calls
         | none => []) ++ acc) []

/-- Modelled from the spec: the engine side of the port-value half of
`lilv_state_restore` (the lilv C library, outside this crate), applied to
a context slot already read as the well-typed `Option<Box<dyn
SetPortValue>>` the trampoline's body operates on.  Per §4.4 the engine
invokes the supplied consume callback once per stored port value with
that value's symbol, pointer, size and type; a null callback produces no
invocation.  `none` propagates a trampoline panic. -/
def engineSetCalls (stored : List SetCall) (cb : Option SetCb)
    (user : Option Nat) : Option (List SetCall) :=
  match cb with
  | none => some []
  | some f =>
    stored.foldr
      (fun v acc => do
        let calls ← f user v.sym v.value v.size v.type_
        let rest ← acc
        pure (calls ++ rest))
      (some [])

/-- The two Rust types that meet at the `user_data` seam of
`set_port_value_func`.  The trampoline (state.rs:72) casts `user_data` to
`*mut Option<Box<dyn SetPortValue>>` — a 16-byte option of a fat box
(data pointer + vtable pointer, null-niche discriminant on the data
word).  `emit_port_values` (state.rs:230-231), however, passes the
address of `some_user : Option<&Box<dyn SetPortValue>>` — an 8-byte
option of a thin reference.  A slot records which of the two actually
sits at the pointed-to address. -/
inductive SetUserSlot where
  | fat (user : Option Nat)
  | thin (user : Option Nat)
  deriving DecidableEq, Repr

/-- What the trampoline's dereference `&mut *(user_data as *mut
Option<Box<dyn SetPortValue>>)` yields. -/
inductive SlotRead where
  | typed (user : Option Nat)
  | garbage
  deriving DecidableEq, Repr

/-- Reading 16 bytes at `user_data` as `Option<Box<dyn SetPortValue>>`.
A `fat` pointee is read back intact.  A `thin (some r)` pointee puts the
non-null reference `r` in the discriminating data word, so the read takes
the `Some` shape with `r` as the box's data pointer and adjacent
out-of-bounds stack memory as its vtable word: a type-confused garbage
box.  A `thin none` pointee has the null niche in the data word and reads
back as `None` (the out-of-bounds vtable word is never inspected); in the
binding this case is unreachable anyway, since a `None` accessor always
comes with a null callback. -/
def readSetSlot : SetUserSlot → SlotRead
  | .fat u => .typed u
  | .thin none => .typed none
  | .thin (some _) => .garbage

/-- Outcome of running the consume trampoline from the raw `user_data`
seam: a defined run with its accessor call log, a panic, or undefined
behavior. -/
inductive TrampRun where
  | calls (log : List SetCall)
  | panicked
  | undefined
  deriving DecidableEq, Repr

/-- The consume trampoline including its first step, the cast and
dereference of `user_data` (state.rs:72-73).  A well-typed slot proceeds
as `set_port_value_func`; a type-confused slot takes the `Some` branch on
a garbage box, and the virtual call `user.set_port_value(..)`
(state.rs:77) goes through an invalid vtable — undefined behavior, not an
invocation of the caller's accessor. -/
def set_port_value_func_raw (slot : SetUserSlot) (port_symbol : List Nat)
    (value : Value) (size type_ : Nat) : TrampRun :=
  match readSetSlot slot with
  | .typed u =>
    match set_port_value_func u port_symbol value size type_ with
    | some log => .calls log
    | none => .panicked
  | .garbage => .undefined

/-- Modelled from the spec: the engine side of
`lilv_state_emit_port_values` (the lilv C library, outside this crate) at
the raw `user_data` seam.  Per §4.5 the engine invokes the supplied
callback once per stored port value (no plugin instance is involved);
outcomes aggregate in order, and a panic or undefined behavior aborts the
run. -/
def engineSetCallsRaw (stored : List SetCall)
    (cb : Option (SetUserSlot → List Nat → Value → Nat → Nat → TrampRun))
    (slot : SetUserSlot) : TrampRun :=
  match cb with
  | none => .calls []
  | some f =>
    stored.foldr
      (fun v acc =>
        match f slot v.sym v.value v.size v.type_ with
        | .calls l =>
          match acc with
          | .calls rest => .calls (l ++ rest)
          | r => r
        | r => r)
      (.calls [])

/-- `State::emit_port_values` from `src/state.rs`: the callback slot is
always `Some(set_port_value_func)` and `user_data` is the address of the
local `some_user = Some(user)` of type `Option<&Box<dyn SetPortValue>>` —
a filled `thin` slot, not the `fat` `Option<Box<dyn SetPortValue>>` the
paired trampoline dereferences.  The engine (`engineSetCallsRaw`, no
instance parameter) iterates over the snapshot's stored port values. -/
def emit_port_values (user : Nat) (stored : List SetCall) : TrampRun :=
  engineSetCallsRaw stored (some set_port_value_func_raw)
    (SetUserSlot.thin (some user))

/-- The distinguished success status `LV2_STATE_SUCCESS` of
`LV2_State_Status`. -/
def LV2_STATE_SUCCESS : Nat := 0

/-- `State::save` from `src/state.rs`: `uri.unwrap_or_default()`, `dir`
and `filename` go through `CString::new(..).unwrap()` (panic on an
interior NUL), then the engine's status reply is mapped to `Ok(())` on
`LV2_STATE_SUCCESS` and passed through unchanged in `Err` otherwise. -/
def save (uri : Option (List Nat)) (dir filename : List Nat)
    (status : Nat) : Option (Except Nat Unit) := do
  let _ ← cstring_new (uri.getD [])
  let _ ← cstring_new dir
  let _ ← cstring_new filename
  if status = LV2_STATE_SUCCESS then pure (Except.ok ())
  else pure (Except.error status)

/-- `State::set_metadata` from `src/state.rs`: no string conversion, the
engine's status reply is mapped to `Ok(())` on `LV2_STATE_SUCCESS` and
passed through unchanged in `Err` otherwise. -/
def set_metadata (_key : Nat) (_value : Value) (_size _type _flags : Nat)
    (status : Nat) : Except Nat Unit :=
  if status = LV2_STATE_SUCCESS then Except.ok ()
  else Except.error status

/-- `State::delete` from `src/state.rs`: the engine's status reply is
mapped to `Ok(())` on `LV2_STATE_SUCCESS` and passed through unchanged in
`Err` otherwise. -/
def delete (status : Nat) : Except Nat Unit :=
  if status = LV2_STATE_SUCCESS then Except.ok ()
  else Except.error status

/-- `State::set_label` from `src/state.rs`: the label goes through
`CString::new(label).unwrap()` — a panic (`none`) exactly on an interior
NUL byte — and the engine's `lilv_state_set_label` (which returns
nothing) is then called. -/
def set_label (label : List Nat) : Option Unit :=
  (cstring_new label).map fun _ => ()

/-- `State::label` from `src/state.rs`.  Input: the engine's raw label,
`none` for a null `lilv_state_get_label` pointer, else the label's bytes.
The source returns `None` on a null pointer and otherwise
`Some(CStr::from_ptr(p).to_str().ok()?)` — the `?` on `.ok()` turns a
UTF-8 error into `None` without panicking. -/
def label (raw : Option (List Nat)) : Option (List Nat) :=
  match raw with
  | none => none
  | some bytes => to_str bytes

/-- Modelled from the spec: the snapshot load entry points (world lookup
`World::new_state`, `new_state_from_file`, `new_state_from_string`) live
in `world.rs`, which is not among the provided sources.  Per §4.2 each
obtains a state pointer from the engine's lookup/parse and fails closed,
wrapping the pointer exactly as `State::new` does — `None` on a null
engine reply, never a partial object. -/
def load_state (world : Nat) (enginePtr : Nat) : Option State :=
  State.new world enginePtr

/-- A concrete produce-accessor used to exercise the trampoline: every
port reports value pointer `1`, size `4`, type `7`. -/
def cexGet : GetPortValue := fun _ => (some 1, 4, 7)

/-- Claim C1, counterexample.  With a filled accessor slot and the
single-byte port symbol `0xFF` (not valid UTF-8), `get_port_value_func`
panics at `to_str().unwrap()` (modelled `none`): the accessor is not
invoked and nothing is written through the out parameters, contradicting
the claim that every filled-slot invocation calls `get_port_value` exactly
once and writes the results. -/
theorem C1_produce_trampoline_counterexample :
    get_port_value_func (some cexGet) [255] = none := by
  rfl

/-- Claim C1, amended: when the accessor slot is filled and the port
symbol is valid UTF-8, the produce trampoline invokes `get_port_value`
exactly once with that symbol, writes the returned size and type through
the out parameters and returns the returned value pointer; a filled slot
with a non-UTF-8 symbol panics without invoking the accessor; an empty
slot writes zero to both out parameters and returns null. -/
theorem C1_produce_trampoline (u : GetPortValue) (sym : List Nat) :
    (utf8Valid sym = true →
      get_port_value_func (some u) sym =
        some ⟨[sym], (u sym).2.1, (u sym).2.2, (u sym).1⟩) ∧
    (utf8Valid sym = false → get_port_value_func (some u) sym = none) ∧
    get_port_value_func none sym = some ⟨[], 0, 0, none⟩ := by
  refine ⟨fun h => ?_, fun h => ?_, rfl⟩
  · rcases hu : u sym with ⟨val, sz, tp⟩
    simp [get_port_value_func, to_str, h, hu]
  · simp [get_port_value_func, to_str, h]

/-- Witness for `C1_produce_trampoline` at the ASCII symbol `"a"` with the
concrete accessor `cexGet`. -/
theorem C1_produce_trampoline_witness :
    get_port_value_func (some cexGet) [97] = some ⟨[[97]], 4, 7, some 1⟩ :=
  (C1_produce_trampoline cexGet [97]).1 (by decide)

/-- Claim C2 (code bug).  `State` derives `Clone` (the `NonNull` engine
handle is copied bitwise) while `Drop` unconditionally calls
`lilv_state_free` on the handle.  For a snapshot holding handle `5` that
is cloned once, the handle is already freed after dropping the first owner
(while the other clone is still live) and freed a second time when the
last owner is dropped — not released exactly once after the last clone. -/
theorem C2_clone_drop_double_free :
    freeCount (State.drop (State.clone ⟨0, 5⟩) []) 5 = 1 ∧
    freeCount (State.drop ⟨0, 5⟩ (State.drop (State.clone ⟨0, 5⟩) [])) 5 = 2 := by
  decide

/-- Claim C3, counterexample.  With a filled accessor slot, the
single-byte port symbol `0xFF` (not valid UTF-8) makes
`set_port_value_func` panic at `to_str().unwrap()` (modelled `none`):
`set_port_value` is not invoked, contradicting the claim that every
filled-slot invocation calls it exactly once. -/
theorem C3_consume_trampoline_counterexample :
    set_port_value_func (some 0) [255] (some 1) 4 7 = none := by
  rfl

/-- Claim C3, amended: when the accessor slot is filled and the port
symbol is valid UTF-8, the consume trampoline invokes the caller's
`set_port_value` exactly once with all four arguments; a filled slot with
a non-UTF-8 symbol panics without invoking it; an empty slot invokes
nothing; in all non-panicking cases the trampoline returns no value. -/
theorem C3_consume_trampoline (user : Nat) (sym : List Nat) (v : Value)
    (sz tp : Nat) :
    (utf8Valid sym = true →
      set_port_value_func (some user) sym v sz tp = some [⟨sym, v, sz, tp⟩]) ∧
    (utf8Valid sym = false →
      set_port_value_func (some user) sym v sz tp = none) ∧
    set_port_value_func none sym v sz tp = some [] := by
  refine ⟨fun h => ?_, fun h => ?_, rfl⟩
  · simp [set_port_value_func, to_str, h]
  · simp [set_port_value_func, to_str, h]

/-- Witness for `C3_consume_trampoline` at the ASCII symbol `"a"`. -/
theorem C3_consume_trampoline_witness :
    set_port_value_func (some 0) [97] (some 2) 4 7 =
      some [⟨[97], some 2, 4, 7⟩] :=
  (C3_consume_trampoline 0 [97] (some 2) 4 7).1 (by decide)

/-- Claim C4: with no accessor supplied (`user = none`), capture passes a
null `get_value` callback and restore a null `set_value` callback to the
engine; the engine then invokes no caller code (empty call logs), and
capture does not fail on that account — its result is the same
`State.new world enginePtr` it would be with any accessor. -/
theorem C4_null_accessor (world : Nat) (fd cd ld sd : Option (List Nat))
    (fs : List Nat) (enginePtr : Nat) (ports : List (List Nat))
    (stored : List SetCall)
    (hfd : (fd.getD []).contains 0 = false)
    (hcd : (cd.getD []).contains 0 = false)
    (hld : (ld.getD []).contains 0 = false)
    (hsd : (sd.getD []).contains 0 = false) :
    new_from_instance world fd cd ld sd none fs enginePtr =
      some ⟨none, featuresVec fs, State.new world enginePtr⟩ ∧
    (∀ u : GetPortValue,
      new_from_instance world fd cd ld sd (some u) fs enginePtr =
        some ⟨some get_port_value_func, featuresVec fs,
          State.new world enginePtr⟩) ∧
    engineCaptureCalls none none ports = [] ∧
    restore none fs = ⟨none, featuresVec fs⟩ ∧
    engineSetCalls stored none none = some [] := by
  have hfd' : (0 : Nat) ∉ fd.getD [] := by simpa using hfd
  have hcd' : (0 : Nat) ∉ cd.getD [] := by simpa using hcd
  have hld' : (0 : Nat) ∉ ld.getD [] := by simpa using hld
  have hsd' : (0 : Nat) ∉ sd.getD [] := by simpa using hsd
  refine ⟨?_, fun u => ?_, rfl, rfl, rfl⟩
  · simp [new_from_instance, cstring_new, hfd', hcd', hld', hsd']
  · simp [new_from_instance, cstring_new, hfd', hcd', hld', hsd']

/-- Witness for `C4_null_accessor`: a concrete capture with no accessor,
no directory hints, one feature at address `10` and engine reply `3`. -/
theorem C4_null_accessor_witness :
    new_from_instance 1 none none none none none [10] 3 =
      some ⟨none, featuresVec [10], State.new 1 3⟩ :=
  (C4_null_accessor 1 none none none none [10] 3 [[97]] []
    (by decide) (by decide) (by decide) (by decide)).1

/-- Claim C5 (code bug).  `emit_port_values` passes `user_data` pointing
at `some_user : Option<&Box<dyn SetPortValue>>` — an 8-byte thin option —
while the trampoline it pairs with dereferences `user_data` as the
16-byte `Option<Box<dyn SetPortValue>>` (state.rs:72).  The slot is
filled, so the type-confused read takes the `Some` branch on a garbage
box and the virtual call goes through an invalid vtable: with a stored
port value (symbol `"a"`, value pointer `2`, size `4`, type `7`) the call
is undefined behavior and the caller's `set_port_value` is never soundly
invoked, against the claim and the method's own documentation that it
"only fires the user set_port_value() callback". -/
theorem C5_emit_type_confusion :
    emit_port_values 0 [⟨[97], some 2, 4, 7⟩] = TrampRun.undefined ∧
    readSetSlot (SetUserSlot.thin (some 0)) = SlotRead.garbage := by
  exact ⟨rfl, rfl⟩

/-- Claim C6, counterexample.  `set_label` with the label bytes
`"a\x00b"` (an interior NUL) panics at `CString::new(label).unwrap()`
(modelled `none`), contradicting the claim that the operations never
panic for any string argument. -/
theorem C6_counterexample : set_label [97, 0, 98] = none := by
  rfl

/-- Claim C6, amended: `save` and `set_label` report failure only through
their return values and do not panic provided their string arguments
contain no interior NUL byte, and `set_metadata` and `delete` (which take
no strings) never panic and always return through their `Result`. -/
theorem C6_no_panic (labelBs dir filename : List Nat)
    (uri : Option (List Nat)) (key : Nat) (v : Value) (sz tp fl status : Nat)
    (hl : labelBs.contains 0 = false)
    (hd : dir.contains 0 = false)
    (hf : filename.contains 0 = false)
    (hu : (uri.getD []).contains 0 = false) :
    set_label labelBs = some () ∧
    (save uri dir filename status).isSome = true ∧
    (set_metadata key v sz tp fl status = Except.ok () ∨
      set_metadata key v sz tp fl status = Except.error status) ∧
    (delete status = Except.ok () ∨ delete status = Except.error status) := by
  have hl' : (0 : Nat) ∉ labelBs := by simpa using hl
  have hd' : (0 : Nat) ∉ dir := by simpa using hd
  have hf' : (0 : Nat) ∉ filename := by simpa using hf
  have hu' : (0 : Nat) ∉ uri.getD [] := by simpa using hu
  refine ⟨?_, ?_, ?_, ?_⟩
  · simp [set_label, cstring_new, hl']
  · by_cases hs : status = LV2_STATE_SUCCESS <;>
      simp [save, cstring_new, hd', hf', hu', hs]
  · by_cases hs : status = LV2_STATE_SUCCESS <;> simp [set_metadata, hs]
  · by_cases hs : status = LV2_STATE_SUCCESS <;> simp [delete, hs]

/-- Witness for `C6_no_panic` at NUL-free arguments: label `"a"`, dir
`"d"`, filename `"f"`, no uri, engine status `0`. -/
theorem C6_no_panic_witness :
    set_label [97] = some () ∧
    (save none [100] [102] 0).isSome = true ∧
    (set_metadata 0 none 0 0 0 0 = Except.ok () ∨
      set_metadata 0 none 0 0 0 0 = Except.error 0) ∧
    (delete 0 = Except.ok () ∨ delete 0 = Except.error 0) :=
  C6_no_panic [97] [100] [102] none 0 none 0 0 0 0
    (by decide) (by decide) (by decide) (by decide)

/-- Claim C7: for `save` (reaching the engine, i.e. NUL-free string
arguments), `set_metadata` and `delete`, the call returns `Ok(())` exactly
when the engine reports `LV2_STATE_SUCCESS`, and for any other engine
status it returns `Err` carrying that status unchanged. -/
theorem C7_status_passthrough (uri : Option (List Nat))
    (dir filename : List Nat) (key : Nat) (v : Value) (sz tp fl status : Nat)
    (hd : dir.contains 0 = false)
    (hf : filename.contains 0 = false)
    (hu : (uri.getD []).contains 0 = false) :
    (save uri dir filename status = some (Except.ok ()) ↔
      status = LV2_STATE_SUCCESS) ∧
    (status ≠ LV2_STATE_SUCCESS →
      save uri dir filename status = some (Except.error status)) ∧
    (set_metadata key v sz tp fl status = Except.ok () ↔
      status = LV2_STATE_SUCCESS) ∧
    (status ≠ LV2_STATE_SUCCESS →
      set_metadata key v sz tp fl status = Except.error status) ∧
    (delete status = Except.ok () ↔ status = LV2_STATE_SUCCESS) ∧
    (status ≠ LV2_STATE_SUCCESS → delete status = Except.error status) := by
  have hd' : (0 : Nat) ∉ dir := by simpa using hd
  have hf' : (0 : Nat) ∉ filename := by simpa using hf
  have hu' : (0 : Nat) ∉ uri.getD [] := by simpa using hu
  by_cases hs : status = LV2_STATE_SUCCESS <;>
    simp [save, set_metadata, delete, cstring_new, hd', hf', hu', hs]

/-- Witness for `C7_status_passthrough`: with engine status `3`, `save`
(on NUL-free arguments), `set_metadata` and `delete` all return
`Err(3)`. -/
theorem C7_status_passthrough_witness :
    save none [100] [102] 3 = some (Except.error 3) ∧
    set_metadata 0 none 0 0 0 3 = Except.error 3 ∧
    delete 3 = Except.error 3 :=
  have h := C7_status_passthrough none [100] [102] 0 none 0 0 0 3
    (by decide) (by decide) (by decide)
  ⟨h.2.1 (by decide), h.2.2.2.1 (by decide), h.2.2.2.2.2 (by decide)⟩

/-- Claim C8: `State::new` (used by every constructor) returns `None`
exactly when the engine's state pointer is null, and on success the
snapshot it returns is the fully populated record; `new_from_instance`
(reaching the engine, i.e. NUL-free directory hints) wraps the engine's
reply the same way, as do the load entry points (`load_state`, modelled
from the spec). -/
theorem C8_fail_closed (world ptr : Nat) (fd cd ld sd : Option (List Nat))
    (user : Option GetPortValue) (fs : List Nat)
    (hfd : (fd.getD []).contains 0 = false)
    (hcd : (cd.getD []).contains 0 = false)
    (hld : (ld.getD []).contains 0 = false)
    (hsd : (sd.getD []).contains 0 = false) :
    (State.new world ptr = none ↔ ptr = 0) ∧
    (ptr ≠ 0 → State.new world ptr = some ⟨world, ptr⟩) ∧
    ((new_from_instance world fd cd ld sd user fs ptr).map
        CaptureOutcome.result = some (State.new world ptr)) ∧
    (load_state world ptr = none ↔ ptr = 0) := by
  have hfd' : (0 : Nat) ∉ fd.getD [] := by simpa using hfd
  have hcd' : (0 : Nat) ∉ cd.getD [] := by simpa using hcd
  have hld' : (0 : Nat) ∉ ld.getD [] := by simpa using hld
  have hsd' : (0 : Nat) ∉ sd.getD [] := by simpa using hsd
  refine ⟨?_, fun hp => ?_, ?_, ?_⟩
  · by_cases hp : ptr = 0 <;> simp [State.new, hp]
  · simp [State.new, hp]
  · cases user <;>
      simp [new_from_instance, cstring_new, hfd', hcd', hld', hsd']
  · by_cases hp : ptr = 0 <;> simp [load_state, State.new, hp]

/-- Witness for `C8_fail_closed` at the null engine reply `0`: both the
wrapper and the spec-modelled load entry point fail closed. -/
theorem C8_fail_closed_witness :
    State.new 1 0 = none ∧ load_state 1 0 = none :=
  have h := C8_fail_closed 1 0 none none none none none []
    (by decide) (by decide) (by decide) (by decide)
  ⟨h.1.mpr rfl, h.2.2.2.mpr rfl⟩

/-- The feature pointer array contains no null among the mapped feature
pointers. -/
theorem count_none_map_some (fs : List Nat) :
    (fs.map some : List Value).count none = 0 := by
  induction fs with
  | nil => rfl
  | cons a l ih => simpa [List.count_cons] using ih

/-- Claim C9: the feature array handed to the engine by both capture and
restore is the feature pointers in iteration order followed by exactly one
null sentinel: its first `fs.length` entries are the pointers to `fs`'s
elements in order, what follows is the single `[none]`, its length is
`fs.length + 1`, and it contains exactly one null element. -/
theorem C9_features (fs : List Nat) (world ptr : Nat)
    (fd cd ld sd : Option (List Nat)) (user : Option GetPortValue)
    (u2 : Option Nat)
    (hfd : (fd.getD []).contains 0 = false)
    (hcd : (cd.getD []).contains 0 = false)
    (hld : (ld.getD []).contains 0 = false)
    (hsd : (sd.getD []).contains 0 = false) :
    (featuresVec fs).take fs.length = fs.map some ∧
    (featuresVec fs).drop fs.length = [none] ∧
    (featuresVec fs).length = fs.length + 1 ∧
    (featuresVec fs).count none = 1 ∧
    ((new_from_instance world fd cd ld sd user fs ptr).map
        CaptureOutcome.features = some (featuresVec fs)) ∧
    (restore u2 fs).features = featuresVec fs := by
  have hfd' : (0 : Nat) ∉ fd.getD [] := by simpa using hfd
  have hcd' : (0 : Nat) ∉ cd.getD [] := by simpa using hcd
  have hld' : (0 : Nat) ∉ ld.getD [] := by simpa using hld
  have hsd' : (0 : Nat) ∉ sd.getD [] := by simpa using hsd
  refine ⟨?_, ?_, ?_, ?_, ?_, rfl⟩
  · simp [featuresVec]
  · simp [featuresVec]
  · simp [featuresVec]
  · simp [featuresVec, List.count_append, count_none_map_some]
  · cases user <;>
      simp [new_from_instance, cstring_new, hfd', hcd', hld', hsd']

/-- Witness for `C9_features` on the two-feature list `[10, 11]`: a
single null sentinel sits after the two feature pointers. -/
theorem C9_features_witness :
    (featuresVec [10, 11]).count none = 1 ∧
    (featuresVec [10, 11]).drop 2 = [none] :=
  have h := C9_features [10, 11] 1 3 none none none none none none
    (by decide) (by decide) (by decide) (by decide)
  ⟨h.2.2.2.1, h.2.1⟩

/-- Claim C10: `label` returns `None` exactly when the engine's stored
label is absent (null pointer) or its bytes are not valid UTF-8; a
malformed label is indistinguishable from an absent one (both give
`label`'s null-pointer result), and on malformed bytes the function
returns normally (`to_str().ok()?` — no panic path exists), while valid
bytes are returned as the label. -/
theorem C10_label_utf8 (raw : Option (List Nat)) :
    (label raw = none ↔
      raw = none ∨ ∃ b, raw = some b ∧ utf8Valid b = false) ∧
    (∀ b, utf8Valid b = false → label (some b) = label none) ∧
    (∀ b, utf8Valid b = true → label (some b) = some b) := by
  refine ⟨?_, fun b hb => by simp [label, to_str, hb],
    fun b hb => by simp [label, to_str, hb]⟩
  cases raw with
  | none => simp [label]
  | some bytes => cases hb : utf8Valid bytes <;> simp [label, to_str, hb]

/-- Witness for `C10_label_utf8` at the malformed single byte `0xFF`:
the label is reported exactly as an absent label. -/
theorem C10_label_utf8_witness : label (some [255]) = label none :=
  (C10_label_utf8 (some [255])).2.1 [255] (by decide)

end LilvState
